import Mathlib

/-!
Shallow embedding of the MMORPG game client (`src/game.js`) and proofs of
the specification's claims about it.

Modelling conventions:
- JS numbers holding pixel coordinates and canvas sizes are embedded as `Rat`
  (all arithmetic the client performs on them is exact at the scales involved).
- JS objects used as string-keyed dictionaries (`this.players`, `this.avatars`,
  `avatar.frames`, `avatar.loadedImages`, `this.keysPressed`) are embedded as
  insertion-ordered association lists; property assignment updates the first
  matching key in place or appends, `delete` removes the key, matching the
  enumeration-order semantics the client relies on.
- Side effects are made explicit: key handlers return the list of wire
  messages they send, `draw` returns the list of canvas operations it issues,
  and the avatar loader returns the number of image-decode operations it
  performs.
-/

namespace GameClient

/-- A DOM image handle (`new Image()` with `src` assigned): the source it
points at and whether the browser has finished decoding it.  Assigning `src`
starts an asynchronous decode, so a handle exists with `complete = false`
until its load callback fires; the client code never reads `complete`. -/
structure Img where
  src : String
  complete : Bool
deriving DecidableEq, Repr

/-- A player record as delivered by the server. -/
structure Player where
  id : String
  x : Rat
  y : Rat
  facing : String
  animationFrame : Nat
  username : String
  avatar : String
deriving DecidableEq, Repr

/-- An avatar record: per-direction base64 frame data, plus the lazily
populated `loadedImages` cache of decoded per-direction frame handles. -/
structure Avatar where
  name : String
  frames : List (String × List String)
  loadedImages : Option (List (String × List Img))
deriving DecidableEq, Repr

/-- Lookup in a string-keyed association list (JS property read). -/
def lookupEntry {α : Type} : List (String × α) → String → Option α
  | [], _ => none
  | e :: rest, k => if e.1 = k then some e.2 else lookupEntry rest k

/-- JS property write `obj[k] = v`: update the first matching key in place,
or append a fresh key at the end (insertion order). -/
def setEntry {α : Type} : List (String × α) → String → α → List (String × α)
  | [], k, v => [(k, v)]
  | e :: rest, k, v => if e.1 = k then (k, v) :: rest else e :: setEntry rest k v

/-- JS `delete obj[k]`. -/
def delEntry {α : Type} : List (String × α) → String → List (String × α)
  | [], _ => []
  | e :: rest, k => if e.1 = k then delEntry rest k else e :: delEntry rest k

/-- `Object.assign(target, source)`: write every source entry into the target
in source-enumeration order. -/
def objAssign {α : Type} (m upd : List (String × α)) : List (String × α) :=
  upd.foldl (fun acc e => setEntry acc e.1 e.2) m

/-- The client-to-server wire messages the input controller can send. -/
inductive OutMsg
  | move (direction : String)
  | stop
deriving DecidableEq, Repr

/-- Server-to-client messages dispatched by `handleServerMessage`. -/
inductive ServerMsg
  | joinGame (success : Bool) (playerId : String)
      (players : List (String × Player)) (avatars : List (String × Avatar))
      (error : String)
  | playerJoined (player : Player) (avatar : Avatar)
  | playersMoved (players : List (String × Player))
  | playerLeft (playerId : String)
  | unknown
deriving DecidableEq, Repr

/-- The mutable state of one `GameClient` instance. -/
structure ClientState where
  worldImage : Option Img
  worldSize : Rat
  socketSome : Bool
  connected : Bool
  myPlayerId : Option String
  myPlayer : Option Player
  players : List (String × Player)
  avatars : List (String × Avatar)
  viewportX : Rat
  viewportY : Rat
  canvasWidth : Rat
  canvasHeight : Rat
  keysPressed : List String
  currentDirection : Option String
deriving DecidableEq, Repr

/-- `Math.max` on two numbers. -/
def jsMax (a b : Rat) : Rat := if a ≤ b then b else a

/-- `Math.min` on two numbers. -/
def jsMin (a b : Rat) : Rat := if a ≤ b then a else b

/-- `updateViewport()`: no-op without a local player; otherwise center on the
player and clamp each axis into the world independently. -/
def updateViewport (s : ClientState) : ClientState :=
  match s.myPlayer with
  | none => s
  | some p =>
    { s with
      viewportX := jsMax 0 (jsMin (p.x - s.canvasWidth / 2) (s.worldSize - s.canvasWidth)),
      viewportY := jsMax 0 (jsMin (p.y - s.canvasHeight / 2) (s.worldSize - s.canvasHeight)) }

/-- `img.src = base64Data` on a fresh `Image`: one decode operation is
started; the handle is not yet complete when cached. -/
def decodeFrame (base64Data : String) : Img := ⟨base64Data, false⟩

/-- Total number of frames of an avatar across all directions. -/
def totalFrames (a : Avatar) : Nat :=
  (a.frames.map (fun df => df.2.length)).sum

/-- The per-avatar body of `loadAvatarImages`: skip if `loadedImages` is
already set, otherwise decode every frame of every direction.  Returns the
updated avatar and the number of decode operations performed. -/
def loadAvatar (a : Avatar) : Avatar × Nat :=
  match a.loadedImages with
  | some _ => (a, 0)
  | none =>
    let cache := some (a.frames.map (fun df => (df.1, df.2.map decodeFrame)))
    ({ a with loadedImages := cache }, totalFrames a)

/-- `loadAvatarImages()`: run `loadAvatar` over every avatar in the mapping,
returning the updated mapping and the total decode count. -/
def loadAvatarImages : List (String × Avatar) → List (String × Avatar) × Nat
  | [] => ([], 0)
  | e :: rest =>
    let an := loadAvatar e.2
    let rm := loadAvatarImages rest
    ((e.1, an.1) :: rm.1, an.2 + rm.2)

/-- `handleServerMessage(message)`: the World State reducer.  `draw()` calls
are pure rendering and change no client state, so they do not appear here. -/
def handleServerMessage (s : ClientState) (msg : ServerMsg) : ClientState :=
  match msg with
  | .joinGame success playerId players avatars _error =>
    if success then
      let s1 := { s with myPlayerId := some playerId, players := players,
                         avatars := avatars }
      let s2 := { s1 with myPlayer := lookupEntry players playerId }
      let s3 := { s2 with avatars := (loadAvatarImages s2.avatars).1 }
      updateViewport s3
    else s
  | .playerJoined player avatar =>
    let s1 := { s with players := setEntry s.players player.id player,
                       avatars := setEntry s.avatars avatar.name avatar }
    { s1 with avatars := (loadAvatarImages s1.avatars).1 }
  | .playersMoved players =>
    updateViewport { s with players := objAssign s.players players }
  | .playerLeft playerId =>
    { s with players := delEntry s.players playerId }
  | .unknown => s

/-- The arrow-key-to-direction table of `handleKeyDown`. -/
def dirOfKey : String → Option String
  | "ArrowUp" => some "up"
  | "ArrowDown" => some "down"
  | "ArrowLeft" => some "left"
  | "ArrowRight" => some "right"
  | _ => none

/-- The four movement keys checked by `handleKeyUp`. -/
def movementKeys : List String :=
  ["ArrowUp", "ArrowDown", "ArrowLeft", "ArrowRight"]

/-- The held-key set read `this.keysPressed[key]`. -/
def hasKey (ks : List String) (k : String) : Bool := ks.contains k

/-- `this.keysPressed[key] = true`: insert the key if absent. -/
def setKey (ks : List String) (k : String) : List String :=
  if ks.contains k then ks else ks ++ [k]

/-- `delete this.keysPressed[key]`. -/
def delKey (ks : List String) (k : String) : List String :=
  ks.filter (fun k' => k' ≠ k)

/-- The guard `!this.connected || !this.socket` shared by both key handlers:
the connection is ready when the socket exists and has reported open. -/
def readyConn (s : ClientState) : Bool := s.connected && s.socketSome

/-- `sendMoveCommand(direction)`: emit a move message, record the direction. -/
def sendMoveCommand (s : ClientState) (direction : String) :
    ClientState × List OutMsg :=
  ({ s with currentDirection := some direction }, [.move direction])

/-- `sendStopCommand()`: emit a stop message, clear the direction. -/
def sendStopCommand (s : ClientState) : ClientState × List OutMsg :=
  ({ s with currentDirection := none }, [.stop])

/-- `handleKeyDown(event)`: on a directional key while the connection is
ready, mark the key held and send a move command; otherwise do nothing. -/
def handleKeyDown (s : ClientState) (key : String) : ClientState × List OutMsg :=
  if !readyConn s then (s, [])
  else
    match dirOfKey key with
    | some direction =>
      sendMoveCommand { s with keysPressed := setKey s.keysPressed key } direction
    | none => (s, [])

/-- `handleKeyUp(event)`: on release of a held key while the connection is
ready, unmark it, and send a stop command when no movement key remains held;
otherwise do nothing. -/
def handleKeyUp (s : ClientState) (key : String) : ClientState × List OutMsg :=
  if !readyConn s then (s, [])
  else if hasKey s.keysPressed key then
    let s1 := { s with keysPressed := delKey s.keysPressed key }
    if s1.keysPressed.any (fun k => movementKeys.contains k) then (s1, [])
    else sendStopCommand s1
  else (s, [])

/-- One operation issued to the 2D canvas context by `draw`/`drawPlayer`. -/
inductive CanvasOp
  | clearRect (x y w h : Rat)
  | blit (img : Img) (sx sy sw sh dx dy dw dh : Rat)
  | sprite (img : Img) (dx dy dw dh : Rat)
  | strokeText (text : String) (x y : Rat)
  | fillText (text : String) (x y : Rat)
deriving DecidableEq, Repr

/-- `drawPlayer(player)`: canvas operations for one player — nothing if the
avatar or frame is unavailable or the player is outside the cull margin. -/
def drawPlayer (s : ClientState) (p : Player) : List CanvasOp :=
  match lookupEntry s.avatars p.avatar with
  | none => []
  | some avatar =>
    match avatar.loadedImages with
    | none => []
    | some loaded =>
      let screenX := p.x - s.viewportX
      let screenY := p.y - s.viewportY
      if screenX < -50 ∨ screenX > s.canvasWidth + 50 ∨
          screenY < -50 ∨ screenY > s.canvasHeight + 50 then []
      else
        match lookupEntry loaded p.facing with
        | none => []
        | some imgs =>
          match imgs[p.animationFrame]? with
          | none => []
          | some img =>
            let drawX := screenX - 32 / 2
            let drawY := screenY - 32
            [.sprite img drawX drawY 32 32,
             .strokeText p.username screenX (drawY - 5),
             .fillText p.username screenX (drawY - 5)]

/-- `draw()`: the full list of canvas operations of one frame.  The guard is
the null check `!this.worldImage` only: it tests that the field has been
assigned, not that the image has finished decoding, so once `loadWorldMap`
has run the operations are issued even while `worldImage.complete` is still
false.  Empty only when the field is unset; otherwise clear, background
blit, players. -/
def draw (s : ClientState) : List CanvasOp :=
  match s.worldImage with
  | none => []
  | some img =>
    CanvasOp.clearRect 0 0 s.canvasWidth s.canvasHeight ::
    CanvasOp.blit img s.viewportX s.viewportY s.canvasWidth s.canvasHeight
        0 0 s.canvasWidth s.canvasHeight ::
    (s.players.map (fun e => drawPlayer s e.2)).flatten

/-- A state-changing external event handled before any join succeeds: a
window resize (which re-runs `updateViewport`) or a server message. -/
inductive GameEvent
  | resize (w h : Rat)
  | serverMsg (m : ServerMsg)
deriving DecidableEq, Repr

/-- Dispatch one event to the corresponding handler. -/
def applyEvent (s : ClientState) : GameEvent → ClientState
  | .resize w h => updateViewport { s with canvasWidth := w, canvasHeight := h }
  | .serverMsg m => handleServerMessage s m

/-- Process a queue of events in order. -/
def applyEvents (s : ClientState) : List GameEvent → ClientState
  | [] => s
  | e :: es => applyEvents (applyEvent s e) es

/-- Whether an event is a successful `join_game` response. -/
def isJoinSuccess : GameEvent → Bool
  | .serverMsg (.joinGame true _ _ _ _) => true
  | _ => false

/-- The client state right after the constructor and `init()` have run, with
the given initial window size: the socket exists but is not yet open, the
world image field is already assigned by `loadWorldMap` — though the image
has not yet decoded (`complete = false`) — and the viewport sits at the
origin. -/
def initClient (w h : Rat) : ClientState :=
  { worldImage := some { src := "world.jpg", complete := false }
    worldSize := 2048
    socketSome := true
    connected := false
    myPlayerId := none
    myPlayer := none
    players := []
    avatars := []
    viewportX := 0
    viewportY := 0
    canvasWidth := w
    canvasHeight := h
    keysPressed := []
    currentDirection := none }

/-- Concrete player used by several witnesses. -/
def witnessPlayer : Player :=
  { id := "p1", x := 100, y := 100, facing := "south", animationFrame := 0,
    username := "Sharan", avatar := "a1" }

/-- Concrete client state used by several witnesses: a ready client whose
local player stands at (100, 100) on an 800×600 canvas in a 2048×2048
world. -/
def witnessState : ClientState :=
  { worldImage := some { src := "world.jpg", complete := true }
    worldSize := 2048
    socketSome := true
    connected := true
    myPlayerId := some "p1"
    myPlayer := some witnessPlayer
    players := [("p1", witnessPlayer)]
    avatars := []
    viewportX := 0
    viewportY := 0
    canvasWidth := 800
    canvasHeight := 600
    keysPressed := []
    currentDirection := none }

/-- Players used by the C2/C3 witnesses. -/
def playerA : Player :=
  { id := "A", x := 10, y := 20, facing := "north", animationFrame := 0,
    username := "alice", avatar := "a1" }

/-- Second player of the C2/C3 witnesses. -/
def playerB : Player :=
  { id := "B", x := 30, y := 40, facing := "east", animationFrame := 1,
    username := "bob", avatar := "a1" }

/-- Moved copy of `playerB` for the C2 witness. -/
def playerB' : Player := { playerB with x := 35, y := 45 }

/-- Client state for the C2/C3 witnesses: mapping `{A ↦ playerA, B ↦ playerB}`
and no local player. -/
def stateAB : ClientState :=
  { witnessState with
    myPlayer := none
    myPlayerId := none
    players := [("A", playerA), ("B", playerB)] }

/-- A fresh two-direction, three-frame avatar for the C4 witness. -/
def avatarW : Avatar :=
  { name := "a1",
    frames := [("north", ["f1", "f2"]), ("south", ["f3"])],
    loadedImages := none }

/-- The `worldImage.onload` completion: the browser marks the image decoded
(the callback body then calls `draw`, which changes no state).  This is the
only transition that ends the load window opened by `loadWorldMap`. -/
def finishWorldLoad (s : ClientState) : ClientState :=
  { s with worldImage := s.worldImage.map (fun i => { i with complete := true }) }

/-- A state inside the world-image load window, reached from the initialized
client: the socket has opened and one successful join response has placed
the local player "Sharan" at (100, 100) on an 800×600 canvas, while the
world image assigned by `loadWorldMap` has not yet finished decoding. -/
def loadingState : ClientState :=
  handleServerMessage { initClient 800 600 with connected := true }
    (.joinGame true "p1" [("p1", witnessPlayer)] [("a1", avatarW)] "")

end GameClient

namespace GameClient

/-- `Math.max` agrees with the order-theoretic `max`. -/
theorem jsMax_eq_max (a b : Rat) : jsMax a b = max a b := by
  unfold jsMax
  rcases le_or_lt a b with h | h
  · rw [if_pos h, max_eq_right h]
  · rw [if_neg (not_le.mpr h), max_eq_left h.le]

/-- `Math.min` agrees with the order-theoretic `min`. -/
theorem jsMin_eq_min (a b : Rat) : jsMin a b = min a b := by
  unfold jsMin
  rcases le_or_lt a b with h | h
  · rw [if_pos h, min_eq_left h]
  · rw [if_neg (not_le.mpr h), min_eq_right h.le]

/-- `updateViewport` touches only the viewport offsets. -/
theorem updateViewport_players (s : ClientState) :
    (updateViewport s).players = s.players := by
  unfold updateViewport
  cases s.myPlayer <;> rfl

/-- Key-by-key description of a JS property write. -/
theorem lookup_setEntry {α : Type} (m : List (String × α)) (k k' : String)
    (v : α) :
    lookupEntry (setEntry m k v) k'
      = if k' = k then some v else lookupEntry m k' := by
  induction m with
  | nil =>
    by_cases h : k = k'
    · simp [setEntry, lookupEntry, h]
    · simp [setEntry, lookupEntry, h, Ne.symm h]
  | cons e rest ih =>
    by_cases he : e.1 = k
    · by_cases h : k = k'
      · simp [setEntry, lookupEntry, he, h]
      · have he' : ¬ e.1 = k' := fun hh => h (he.symm.trans hh)
        simp [setEntry, lookupEntry, he, h, he', Ne.symm h]
    · by_cases h : e.1 = k'
      · have hk : ¬ k' = k := fun hh => he (h.trans hh)
        simp [setEntry, lookupEntry, he, h, hk]
      · simp [setEntry, lookupEntry, he, h, ih]

/-- A key absent from an association list looks up to `none`. -/
theorem lookup_eq_none_of_not_mem {α : Type} (m : List (String × α))
    (k : String) (h : k ∉ m.map Prod.fst) : lookupEntry m k = none := by
  induction m with
  | nil => rfl
  | cons e rest ih =>
    simp only [List.map_cons, List.mem_cons, not_or] at h
    have he : ¬ e.1 = k := fun hh => h.1 hh.symm
    simp [lookupEntry, he, ih h.2]

/-- Key-by-key description of `Object.assign` for a source object with
distinct keys: supplied keys read from the source, all others from the
target. -/
theorem lookup_objAssign {α : Type} (upd m : List (String × α)) (k : String)
    (h : (upd.map Prod.fst).Nodup) :
    lookupEntry (objAssign m upd) k
      = if (lookupEntry upd k).isSome then lookupEntry upd k
        else lookupEntry m k := by
  induction upd generalizing m with
  | nil => simp [objAssign, lookupEntry]
  | cons e rest ih =>
    simp only [List.map_cons, List.nodup_cons] at h
    have hstep : objAssign m (e :: rest) = objAssign (setEntry m e.1 e.2) rest := rfl
    rw [hstep, ih _ h.2]
    by_cases hk : k = e.1
    · subst hk
      have hnone : lookupEntry rest e.1 = none :=
        lookup_eq_none_of_not_mem rest e.1 h.1
      simp [hnone, lookupEntry, lookup_setEntry]
    · simp [lookupEntry, lookup_setEntry, hk, Ne.symm hk]

/-- Key-by-key description of `delete obj[k]`. -/
theorem lookup_delEntry {α : Type} (m : List (String × α)) (pid k : String) :
    lookupEntry (delEntry m pid) k
      = if k = pid then none else lookupEntry m k := by
  induction m with
  | nil => simp [delEntry, lookupEntry]
  | cons e rest ih =>
    by_cases he : e.1 = pid
    · by_cases hk : k = pid
      · subst hk
        simp [delEntry, he, ih]
      · have he' : ¬ e.1 = k := fun hh => hk (hh.symm.trans he)
        have hpk : ¬ pid = k := fun hh => hk hh.symm
        simp [delEntry, lookupEntry, he, hk, he', hpk, ih]
    · by_cases hk : e.1 = k
      · have hkp : ¬ k = pid := fun hh => he (hk.trans hh)
        simp [delEntry, lookupEntry, he, hk, hkp]
      · simp [delEntry, lookupEntry, he, hk, ih]

/-- Deleting an absent key is the identity on the association list. -/
theorem delEntry_eq_self {α : Type} (m : List (String × α)) (pid : String)
    (h : lookupEntry m pid = none) : delEntry m pid = m := by
  induction m with
  | nil => rfl
  | cons e rest ih =>
    have he : ¬ e.1 = pid := by
      intro hh
      simp [lookupEntry, hh] at h
    have hrest : lookupEntry rest pid = none := by
      simpa [lookupEntry, he] using h
    simp [delEntry, he, ih hrest]

end GameClient

namespace GameClient

/-- Claim C1: for every local player position and every canvas and world size,
`updateViewport` sets each top-left coordinate to the player coordinate minus
half the canvas extent on that axis, clamped independently so that
`0 ≤ viewportX ≤ max 0 (worldSize − canvasWidth)` (same for `y`), and the
result is `0` whenever the canvas extent exceeds the world size. -/
theorem updateViewport_clamps (s : ClientState) (p : Player)
    (h : s.myPlayer = some p) :
    (updateViewport s).viewportX
        = max 0 (min (p.x - s.canvasWidth / 2) (s.worldSize - s.canvasWidth)) ∧
    (updateViewport s).viewportY
        = max 0 (min (p.y - s.canvasHeight / 2) (s.worldSize - s.canvasHeight)) ∧
    0 ≤ (updateViewport s).viewportX ∧
    (updateViewport s).viewportX ≤ max 0 (s.worldSize - s.canvasWidth) ∧
    0 ≤ (updateViewport s).viewportY ∧
    (updateViewport s).viewportY ≤ max 0 (s.worldSize - s.canvasHeight) ∧
    (s.worldSize < s.canvasWidth → (updateViewport s).viewportX = 0) ∧
    (s.worldSize < s.canvasHeight → (updateViewport s).viewportY = 0) := by
  unfold updateViewport
  rw [h]
  dsimp only
  simp only [jsMax_eq_max, jsMin_eq_min]
  refine ⟨trivial, trivial, le_max_left _ _, ?_, le_max_left _ _, ?_, ?_, ?_⟩
  · exact max_le_max le_rfl (min_le_right _ _)
  · exact max_le_max le_rfl (min_le_right _ _)
  · intro hlt
    exact max_eq_left (le_of_lt (lt_of_le_of_lt (min_le_right _ _) (by linarith)))
  · intro hlt
    exact max_eq_left (le_of_lt (lt_of_le_of_lt (min_le_right _ _) (by linarith)))

/-- Witness for C1 at the concrete state `witnessState`. -/
theorem updateViewport_clamps_witness :
    (updateViewport witnessState).viewportX
        = max 0 (min (witnessPlayer.x - witnessState.canvasWidth / 2)
            (witnessState.worldSize - witnessState.canvasWidth)) ∧
    (updateViewport witnessState).viewportY
        = max 0 (min (witnessPlayer.y - witnessState.canvasHeight / 2)
            (witnessState.worldSize - witnessState.canvasHeight)) ∧
    0 ≤ (updateViewport witnessState).viewportX ∧
    (updateViewport witnessState).viewportX
        ≤ max 0 (witnessState.worldSize - witnessState.canvasWidth) ∧
    0 ≤ (updateViewport witnessState).viewportY ∧
    (updateViewport witnessState).viewportY
        ≤ max 0 (witnessState.worldSize - witnessState.canvasHeight) ∧
    (witnessState.worldSize < witnessState.canvasWidth →
        (updateViewport witnessState).viewportX = 0) ∧
    (witnessState.worldSize < witnessState.canvasHeight →
        (updateViewport witnessState).viewportY = 0) :=
  updateViewport_clamps witnessState witnessPlayer rfl

/-- Claim C2: `players_moved` merges the supplied partial id→Player mapping
into the existing one, replacing exactly the supplied ids and leaving every
other entry unchanged. -/
theorem playersMoved_merges (s : ClientState) (upd : List (String × Player))
    (h : (upd.map Prod.fst).Nodup) (k : String) :
    lookupEntry (handleServerMessage s (.playersMoved upd)).players k
      = if (lookupEntry upd k).isSome then lookupEntry upd k
        else lookupEntry s.players k := by
  have hred : handleServerMessage s (.playersMoved upd)
      = updateViewport { s with players := objAssign s.players upd } := rfl
  rw [hred, updateViewport_players]
  exact lookup_objAssign upd s.players k h

/-- Witness for C2: merging `{B ↦ playerB'}` into `{A ↦ playerA, B ↦ playerB}`
updates B, leaves A untouched, and the resulting mapping is
`{A ↦ playerA, B ↦ playerB'}`. -/
theorem playersMoved_merges_witness :
    (([("B", playerB')].map (Prod.fst (α := String) (β := Player))).Nodup ∧
      lookupEntry
        (handleServerMessage stateAB (.playersMoved [("B", playerB')])).players "A"
        = (if (lookupEntry [("B", playerB')] "A").isSome
            then lookupEntry [("B", playerB')] "A"
            else lookupEntry stateAB.players "A") ∧
      lookupEntry
        (handleServerMessage stateAB (.playersMoved [("B", playerB')])).players "B"
        = (if (lookupEntry [("B", playerB')] "B").isSome
            then lookupEntry [("B", playerB')] "B"
            else lookupEntry stateAB.players "B")) ∧
    (handleServerMessage stateAB (.playersMoved [("B", playerB')])).players
      = [("A", playerA), ("B", playerB')] :=
  ⟨⟨by decide,
    playersMoved_merges stateAB [("B", playerB')] (by decide) "A",
    playersMoved_merges stateAB [("B", playerB')] (by decide) "B"⟩,
   by decide⟩

/-- Claim C3: `player_left` removes exactly the entry with the message's
playerId, leaves every other entry unchanged, and is a no-op when no entry
with that id exists. -/
theorem playerLeft_removes (s : ClientState) (pid : String) :
    (∀ k, lookupEntry (handleServerMessage s (.playerLeft pid)).players k
        = if k = pid then none else lookupEntry s.players k) ∧
    (lookupEntry s.players pid = none →
      (handleServerMessage s (.playerLeft pid)).players = s.players) :=
  ⟨fun k => lookup_delEntry s.players pid k,
   fun h => delEntry_eq_self s.players pid h⟩

/-- Witness for C3: removing B from `{A ↦ playerA, B ↦ playerB}` deletes
exactly B, and removing the unknown id C is a no-op. -/
theorem playerLeft_removes_witness :
    (lookupEntry (handleServerMessage stateAB (.playerLeft "B")).players "A"
        = (if "A" = "B" then none else lookupEntry stateAB.players "A")) ∧
    (lookupEntry (handleServerMessage stateAB (.playerLeft "B")).players "B"
        = (if "B" = "B" then none else lookupEntry stateAB.players "B")) ∧
    (lookupEntry stateAB.players "C" = none ∧
      (handleServerMessage stateAB (.playerLeft "C")).players = stateAB.players) :=
  ⟨(playerLeft_removes stateAB "B").1 "A",
   (playerLeft_removes stateAB "B").1 "B",
   by decide, (playerLeft_removes stateAB "C").2 (by decide)⟩

/-- Running `loadAvatar` on an already-processed avatar is a no-op with zero
decodes. -/
theorem loadAvatar_loadAvatar (a : Avatar) :
    loadAvatar (loadAvatar a).1 = ((loadAvatar a).1, 0) := by
  unfold loadAvatar
  cases h : a.loadedImages <;> simp [h]

/-- Running the whole-map loader a second time changes nothing and performs
zero decodes. -/
theorem loadAvatarImages_loadAvatarImages (avs : List (String × Avatar)) :
    loadAvatarImages (loadAvatarImages avs).1 = ((loadAvatarImages avs).1, 0) := by
  induction avs with
  | nil => rfl
  | cons e rest ih =>
    simp only [loadAvatarImages, loadAvatar_loadAvatar e.2, ih]

/-- Claim C4: the avatar loader is idempotent per avatar — an avatar not yet
loaded gets exactly one decode per frame on the first run, and the second run
skips every avatar already marked loaded, performs zero decodes, and leaves
the cached frame handles unchanged. -/
theorem loadAvatarImages_idempotent :
    (∀ a : Avatar, a.loadedImages = none →
        (loadAvatar a).2 = totalFrames a ∧
        loadAvatar (loadAvatar a).1 = ((loadAvatar a).1, 0)) ∧
    (∀ avs : List (String × Avatar),
        loadAvatarImages (loadAvatarImages avs).1
          = ((loadAvatarImages avs).1, 0)) :=
  ⟨fun a h => ⟨by unfold loadAvatar; rw [h], loadAvatar_loadAvatar a⟩,
   loadAvatarImages_loadAvatarImages⟩

/-- Witness for C4: the fresh `avatarW` decodes once per frame (3 decodes) on
the first run, and the second run is a no-op both per avatar and on a whole
mapping containing it. -/
theorem loadAvatarImages_idempotent_witness :
    (avatarW.loadedImages = none ∧
      (loadAvatar avatarW).2 = totalFrames avatarW ∧
      loadAvatar (loadAvatar avatarW).1 = ((loadAvatar avatarW).1, 0)) ∧
    loadAvatarImages (loadAvatarImages [("a1", avatarW)]).1
      = ((loadAvatarImages [("a1", avatarW)]).1, 0) :=
  ⟨⟨rfl, loadAvatarImages_idempotent.1 avatarW rfl⟩,
   loadAvatarImages_idempotent.2 [("a1", avatarW)]⟩

/-- Claim C7: a `join_game` response with `success = false` changes no client
state at all — the player mapping, avatar mapping, local player id and
reference, and viewport offsets are untouched. -/
theorem joinGameFailure_preserves_state (s : ClientState) (pid : String)
    (ps : List (String × Player)) (avs : List (String × Avatar))
    (err : String) :
    handleServerMessage s (.joinGame false pid ps avs err) = s := rfl

/-- Claim C5: with the connection ready and no key yet held, the sequence
press Up, press Down, release Up sends no stop command on the release of Up
(Down is still held), and the subsequent release of Down sends exactly one
stop command. -/
theorem upDownReleaseUp_stops_once (s : ClientState)
    (hc : s.connected = true) (hs : s.socketSome = true)
    (hk : s.keysPressed = []) :
    OutMsg.stop ∉
      (handleKeyUp
        (handleKeyDown (handleKeyDown s "ArrowUp").1 "ArrowDown").1
        "ArrowUp").2 ∧
    (handleKeyUp
      (handleKeyUp
        (handleKeyDown (handleKeyDown s "ArrowUp").1 "ArrowDown").1
        "ArrowUp").1
      "ArrowDown").2 = [OutMsg.stop] := by
  obtain ⟨wi, ws, so, co, pid, mp, pl, av, vx, vy, cw, ch, kp, cd⟩ := s
  dsimp only at hc hs hk
  subst hc
  subst hs
  subst hk
  exact ⟨by show OutMsg.stop ∉ ([] : List OutMsg); simp, rfl⟩

/-- Witness for C5 at the concrete ready state `witnessState`. -/
theorem upDownReleaseUp_stops_once_witness :
    (witnessState.connected = true ∧ witnessState.socketSome = true ∧
      witnessState.keysPressed = []) ∧
    OutMsg.stop ∉
      (handleKeyUp
        (handleKeyDown (handleKeyDown witnessState "ArrowUp").1 "ArrowDown").1
        "ArrowUp").2 ∧
    (handleKeyUp
      (handleKeyUp
        (handleKeyDown (handleKeyDown witnessState "ArrowUp").1 "ArrowDown").1
        "ArrowUp").1
      "ArrowDown").2 = [OutMsg.stop] :=
  ⟨⟨rfl, rfl, rfl⟩, upDownReleaseUp_stops_once witnessState rfl rfl rfl⟩

/-- Claim C6 is violated by the code: in the real not-yet-loaded window —
`loadWorldMap` has assigned the `Image` but the browser has not finished
decoding it — `draw()` is not a no-op.  The guard at the top of `draw` is
the null check `!this.worldImage` only, so in the reachable `loadingState`
(world image present but `complete = false`) `draw` clears the canvas and
draws the player's name label. -/
theorem draw_not_noop_while_world_loading :
    loadingState.worldImage = some { src := "world.jpg", complete := false } ∧
    draw loadingState =
      [CanvasOp.clearRect 0 0 800 600,
       CanvasOp.blit { src := "world.jpg", complete := false }
         0 0 800 600 0 0 800 600,
       CanvasOp.sprite { src := "f3", complete := false } 84 68 32 32,
       CanvasOp.strokeText "Sharan" 100 63,
       CanvasOp.fillText "Sharan" 100 63] := by
  have hminx : jsMin ((100 : Rat) - 800 / 2) (2048 - 800) = 100 - 800 / 2 := by
    unfold jsMin
    rw [if_pos (by norm_num)]
  have hvx : jsMax 0 (jsMin ((100 : Rat) - 800 / 2) (2048 - 800)) = 0 := by
    rw [hminx]
    unfold jsMax
    rw [if_neg (by norm_num)]
  have hminy : jsMin ((100 : Rat) - 600 / 2) (2048 - 600) = 100 - 600 / 2 := by
    unfold jsMin
    rw [if_pos (by norm_num)]
  have hvy : jsMax 0 (jsMin ((100 : Rat) - 600 / 2) (2048 - 600)) = 0 := by
    rw [hminy]
    unfold jsMax
    rw [if_neg (by norm_num)]
  have hLS : loadingState =
      { worldImage := some { src := "world.jpg", complete := false }
        worldSize := 2048
        socketSome := true
        connected := true
        myPlayerId := some "p1"
        myPlayer := some witnessPlayer
        players := [("p1", witnessPlayer)]
        avatars := [("a1",
          { name := "a1"
            frames := [("north", ["f1", "f2"]), ("south", ["f3"])]
            loadedImages := some [("north", [⟨"f1", false⟩, ⟨"f2", false⟩]),
              ("south", [⟨"f3", false⟩])] })]
        viewportX := jsMax 0 (jsMin ((100 : Rat) - 800 / 2) (2048 - 800))
        viewportY := jsMax 0 (jsMin ((100 : Rat) - 600 / 2) (2048 - 600))
        canvasWidth := 800
        canvasHeight := 600
        keysPressed := []
        currentDirection := none } := rfl
  rw [hLS, hvx, hvy]
  refine ⟨rfl, ?_⟩
  norm_num [draw, drawPlayer, lookupEntry, witnessPlayer]
  decide

/-- Claim C8: while the connection is not ready, both key handlers send
nothing — neither a move command nor a stop command goes over the channel. -/
theorem notReady_sends_nothing (s : ClientState) (key : String)
    (h : readyConn s = false) :
    (handleKeyDown s key).2 = [] ∧ (handleKeyUp s key).2 = [] := by
  unfold handleKeyDown handleKeyUp
  rw [h]
  exact ⟨rfl, rfl⟩

/-- Witness for C8: the freshly initialized client (socket not yet open) on
an arrow-key press and release. -/
theorem notReady_sends_nothing_witness :
    readyConn (initClient 800 600) = false ∧
    (handleKeyDown (initClient 800 600) "ArrowUp").2 = [] ∧
    (handleKeyUp (initClient 800 600) "ArrowUp").2 = [] :=
  ⟨rfl, notReady_sends_nothing (initClient 800 600) "ArrowUp" rfl⟩

/-- Claim C10: releasing a key that is not recorded in the held-key set
changes no state and sends nothing, whether or not the connection is ready
and whether or not any directional key is held. -/
theorem keyUp_unrecorded_noop (s : ClientState) (key : String)
    (h : hasKey s.keysPressed key = false) :
    handleKeyUp s key = (s, []) := by
  unfold handleKeyUp
  cases hr : readyConn s
  · rfl
  · rw [h]
    rfl

/-- Witness for C10: releasing ArrowUp on a ready client holding no keys
changes nothing and sends nothing. -/
theorem keyUp_unrecorded_noop_witness :
    hasKey witnessState.keysPressed "ArrowUp" = false ∧
    handleKeyUp witnessState "ArrowUp" = (witnessState, []) :=
  ⟨rfl, keyUp_unrecorded_noop witnessState "ArrowUp" rfl⟩

/-- A non-join-success event keeps the local player unset and the viewport at
the origin. -/
theorem applyEvent_preserves_idle (s : ClientState) (e : GameEvent)
    (hj : isJoinSuccess e = false)
    (h : s.myPlayer = none ∧ s.viewportX = 0 ∧ s.viewportY = 0) :
    (applyEvent s e).myPlayer = none ∧ (applyEvent s e).viewportX = 0 ∧
      (applyEvent s e).viewportY = 0 := by
  cases e with
  | resize w h' =>
    simp [applyEvent, updateViewport, h.1, h.2.1, h.2.2]
  | serverMsg m =>
    cases m with
    | joinGame succ pid ps avs err =>
      cases succ
      · exact h
      · simp [isJoinSuccess] at hj
    | playerJoined p a =>
      simpa [applyEvent, handleServerMessage] using h
    | playersMoved ps =>
      simp [applyEvent, handleServerMessage, updateViewport, h.1, h.2.1, h.2.2]
    | playerLeft pid =>
      simpa [applyEvent, handleServerMessage] using h
    | unknown => exact h

/-- Processing any queue of non-join-success events keeps the local player
unset and the viewport at the origin. -/
theorem applyEvents_preserves_idle (evs : List GameEvent) (s : ClientState)
    (hj : ∀ e ∈ evs, isJoinSuccess e = false)
    (h : s.myPlayer = none ∧ s.viewportX = 0 ∧ s.viewportY = 0) :
    (applyEvents s evs).myPlayer = none ∧ (applyEvents s evs).viewportX = 0 ∧
      (applyEvents s evs).viewportY = 0 := by
  induction evs generalizing s with
  | nil => exact h
  | cons e es ih =>
    exact ih (applyEvent s e) (fun x hx => hj x (List.mem_cons_of_mem e hx))
      (applyEvent_preserves_idle s e (hj e (List.mem_cons_self e es)) h)

/-- Claim C9: with no local player recorded, `updateViewport` returns the
state unchanged, so across any sequence of resize and server-message events
containing no successful join the viewport offsets keep their initial value
(0, 0). -/
theorem viewport_zero_before_join :
    (∀ s : ClientState, s.myPlayer = none → updateViewport s = s) ∧
    (∀ (w h : Rat) (evs : List GameEvent),
      (∀ e ∈ evs, isJoinSuccess e = false) →
      (applyEvents (initClient w h) evs).viewportX = 0 ∧
        (applyEvents (initClient w h) evs).viewportY = 0) := by
  constructor
  · intro s hs
    unfold updateViewport
    rw [hs]
  · intro w h evs hj
    exact (applyEvents_preserves_idle evs (initClient w h) hj ⟨rfl, rfl, rfl⟩).2

/-- Concrete event queue for the C9 witness: a resize, a failed join, a
roster update, a movement update and a leave notification, none of which is
a successful join. -/
def eventsW : List GameEvent :=
  [.resize 1024 768,
   .serverMsg (.joinGame false "p1" [] [] "full"),
   .serverMsg (.playerJoined playerA avatarW),
   .serverMsg (.playersMoved [("A", { playerA with x := 11 })]),
   .serverMsg (.playerLeft "A")]

/-- Witness for C9: the viewport recompute leaves `stateAB` (no local player)
unchanged, and after the concrete pre-join event queue `eventsW` the viewport
still sits at (0, 0). -/
theorem viewport_zero_before_join_witness :
    (stateAB.myPlayer = none ∧ updateViewport stateAB = stateAB) ∧
    ((∀ e ∈ eventsW, isJoinSuccess e = false) ∧
      (applyEvents (initClient 800 600) eventsW).viewportX = 0 ∧
      (applyEvents (initClient 800 600) eventsW).viewportY = 0) :=
  ⟨⟨rfl, viewport_zero_before_join.1 stateAB rfl⟩,
   ⟨by decide, viewport_zero_before_join.2 800 600 eventsW (by decide)⟩⟩

end GameClient
